import Mathlib

/-!
# Verification of the df-parallel benchmark harness

Shallow embedding of the benchmark-harness notebooks
(`2-PandasDataframe.ipynb`, `3-DaskDataframe.ipynb`, `4-SparkDataframe.ipynb`,
`6-DaskCudaDataframe.ipynb`).  Each notebook runs the same linear sequence:
compute the size of `gene_info.tsv`, start a processing context sized by
`n_cores`, read the gene table (csv with a post-load filter, or parquet with
the predicate pushed into the load), rename the `#tax_id` column to `tax_id`,
group by `tax_id` and count, sort by count descending, materialize, and --
when `n_cores > 0` -- write one result row to `results/`.

Rows of the gene table are modelled as association lists from column names to
string values (every engine reads the file with string dtypes).
-/

namespace DfParallel

/-- A data row: association list from column name to cell value (all engines
read the table with string dtype). -/
abbrev RawRow := List (String × String)

/-- Cell lookup by column name, as `row[col]`; defaults to `""` when the
column is absent (the notebooks only look up columns that are present). -/
def getVal (r : RawRow) (c : String) : String :=
  (r.lookup c).getD ""

/-- The seven columns read by every notebook:
`column_names = ["GeneID", "Symbol", "Synonyms", "description",
"type_of_gene", "#tax_id", "chromosome"]`. -/
def column_names : List String :=
  ["GeneID", "Symbol", "Synonyms", "description", "type_of_gene", "#tax_id", "chromosome"]

/-- Projection of a row onto a column list, in column order (`usecols=` /
`columns=` in the read calls). -/
def selectRow (cols : List String) (r : RawRow) : RawRow :=
  cols.map fun c => (c, getVal r c)

/-- The filter predicate `type_of_gene == 'protein-coding'`. -/
def isProteinCoding (r : RawRow) : Bool :=
  getVal r "type_of_gene" == "protein-coding"

/-- The csv read path: `read_csv(filename, usecols=column_names, dtype=str)`
followed by `query("type_of_gene == 'protein-coding'")` — project each row to
the seven columns at load time, then filter. -/
def readCsvDF (rows : List RawRow) : List RawRow :=
  (rows.map (selectRow column_names)).filter isProteinCoding

/-- The parquet read path: `read_parquet(filename, columns=column_names,
filters=[[("type_of_gene", "==", "protein-coding")]])` — the predicate is
pushed down into the load, so rows are filtered first and the surviving rows
are restricted to the seven columns. -/
def readParquetDF (rows : List RawRow) : List RawRow :=
  (rows.filter isProteinCoding).map (selectRow column_names)

/-- `rename(columns={"#tax_id": "tax_id"})` on one column name. -/
def renameKey (c : String) : String :=
  if c = "#tax_id" then "tax_id" else c

/-- `rename(columns={"#tax_id": "tax_id"})` on one row: keys are renamed,
values untouched. -/
def renameRow (r : RawRow) : RawRow :=
  r.map fun p => (renameKey p.1, p.2)

/-- `genes = genes.rename(columns={"#tax_id": "tax_id"})` on the dataframe. -/
def renameDF (df : List RawRow) : List RawRow :=
  df.map renameRow

/-- The `tax_id` key of a (renamed) row. -/
def taxId (r : RawRow) : String :=
  getVal r "tax_id"

/-- `groups = genes.groupby("tax_id").size().reset_index()` with columns
`["tax_id", "count"]`: one pair per distinct `tax_id`, carrying the number of
rows with that `tax_id`. -/
def groupCounts (df : List RawRow) : List (String × Nat) :=
  (df.map taxId).dedup.map fun t => (t, df.countP fun r => taxId r == t)

/-- The descending-count order used by `sort_values("count", ascending=False)`
(Spark: `sort(col("count").desc())`). -/
def countGe (a b : String × Nat) : Prop :=
  b.2 ≤ a.2

instance : DecidableRel countGe := fun a b => inferInstanceAs (Decidable (b.2 ≤ a.2))

instance : IsTotal (String × Nat) countGe :=
  ⟨fun a b => (Nat.le_total b.2 a.2).imp id id⟩

instance : IsTrans (String × Nat) countGe :=
  ⟨fun _ _ _ hab hbc => Nat.le_trans hbc hab⟩

/-- `groups = groups.sort_values("count", ascending=False)`. -/
def sortByCountDesc (l : List (String × Nat)) : List (String × Nat) :=
  List.insertionSort countGe l

/-- The full process-data sequence: group by `tax_id`, count, sort by count
descending; materialization makes the result a concrete list. -/
def materializeGroups (df : List RawRow) : List (String × Nat) :=
  sortByCountDesc (groupCounts df)

/-! ## The harness run -/

/-- The papermill parameters of a run: `n_cores` (an `int`, non-negative per
the contract, so modelled as `Nat`) and `file_format` (an arbitrary string
parameter, compared against `"csv"` and `"parquet"`). -/
structure Config where
  n_cores : Nat
  file_format : String
deriving DecidableEq

/-- The two data files a run may touch.  `tsv` carries the byte size reported
by `os.path.getsize` together with the parsed rows; `none` means the file does
not exist (the corresponding access raises). -/
structure FileSys where
  tsv : Option (Nat × List RawRow)
  parquet : Option (List RawRow)
deriving DecidableEq

/-- Uncaught Python exceptions a run can end with: `FileNotFoundError` from
accessing a missing file, `NameError` from using an unassigned variable. -/
inductive RunError
  | fileNotFound : String → RunError
  | nameError : String → RunError
deriving DecidableEq

/-- How the processing context is initialized from `n_cores`:
`Client(n_workers=n_cores, threads_per_worker=1)` when `n_cores > 0`,
plain `Client()` (all available cores) otherwise. -/
inductive ClusterInit
  | withWorkers : Nat → ClusterInit
  | allAvailable : ClusterInit
deriving DecidableEq

/-- The Dask client-setup cell. -/
def daskClient (n_cores : Nat) : ClusterInit :=
  if n_cores > 0 then .withWorkers n_cores else .allAvailable

/-- The Spark session-setup cell: `master(f"local[{n_cores}]")` when
`n_cores > 0`, the builder default (all available cores) otherwise. -/
def sparkMaster (n_cores : Nat) : ClusterInit :=
  if n_cores > 0 then .withWorkers n_cores else .allAvailable

/-- `file_size = f"{os.path.getsize(filename)/1E9:.1f}"`: bytes scaled to GB
and formatted with one decimal place.  The Python expression rounds a binary
float; floating point is not shallowly embeddable, so the division and the
rounding to one decimal are modelled exactly in decimal (round half up). -/
def fileSizeStr (bytes : Nat) : String :=
  let tenths := (bytes * 10 + 500000000) / 1000000000
  toString (tenths / 10) ++ "." ++ toString (tenths % 10)

/-- `output_file = f"{engine}_{file_size}_{file_format}_{n_cores}.csv"`. -/
def outputFile (engine size fmt : String) (cores : Nat) : String :=
  engine ++ "_" ++ size ++ "_" ++ fmt ++ "_" ++ toString cores ++ ".csv"

/-- One benchmark result row, the columns of the written CSV:
`{"cores": n_cores, "time": end-start, "size": file_size,
"format": file_format, "dataframe": engine}`.  Wall-clock time is measured
from the outside world, so the run function takes it as a parameter. -/
structure ResultRow where
  cores : Nat
  time : Nat
  size : String
  format : String
  dataframe : String
deriving DecidableEq

/-- Observable outcome of one notebook run: stdout lines, data files opened
for reading, the processing-context initialization, result files written
under `results/` (path with the row), the materialized group table, and the
uncaught exception if the run died. -/
structure RunResult where
  printed : List String
  readsAttempted : List String
  ctx : Option ClusterInit
  written : List (String × ResultRow)
  groups : List (String × Nat)
  error : Option RunError
deriving DecidableEq

/-- A run that died with exception `e` after producing `printed`, `reads` and
`ctx`: nothing later in the notebook executes, so no result file is written. -/
def abortedRun (printed reads : List String) (ctx : Option ClusterInit)
    (e : RunError) : RunResult :=
  { printed := printed, readsAttempted := reads, ctx := ctx,
    written := [], groups := [], error := some e }

/-- The `3-DaskDataframe` notebook, cell by cell: setup (size of
`gene_info.tsv`, fatal when missing), client setup from `n_cores`, the
read-data cell (csv read + filter / parquet read with pushdown / report of an
invalid format followed by a fatal `NameError` on the unassigned `genes` at
the rename), the group-count-sort pipeline, materialization, and a result row
written only when `n_cores > 0`.  `elapsed` is the measured wall-clock time.
-/
def runDask (cfg : Config) (fs : FileSys) (elapsed : Nat) : RunResult :=
  match fs.tsv with
  | none => abortedRun [] [] none (.fileNotFound "gene_info.tsv")
  | some (tsvBytes, tsvRows) =>
    let file_size := fileSizeStr tsvBytes
    let client := daskClient cfg.n_cores
    if cfg.file_format = "csv" then
      let genes := renameDF (readCsvDF tsvRows)
      { printed := ["Filename: gene_info.tsv"],
        readsAttempted := ["gene_info.tsv"],
        ctx := some client,
        written :=
          if cfg.n_cores > 0 then
            [("results/" ++ outputFile "3-DaskDataframe" file_size cfg.file_format cfg.n_cores,
              { cores := cfg.n_cores, time := elapsed, size := file_size,
                format := cfg.file_format, dataframe := "Dask" })]
          else [],
        groups := materializeGroups genes,
        error := none }
    else if cfg.file_format = "parquet" then
      match fs.parquet with
      | none =>
        abortedRun [] ["gene_info.parquet"] (some client) (.fileNotFound "gene_info.parquet")
      | some pqRows =>
        let genes := renameDF (readParquetDF pqRows)
        { printed := ["Filename: gene_info.parquet"],
          readsAttempted := ["gene_info.parquet"],
          ctx := some client,
          written :=
            if cfg.n_cores > 0 then
              [("results/" ++ outputFile "3-DaskDataframe" file_size cfg.file_format cfg.n_cores,
                { cores := cfg.n_cores, time := elapsed, size := file_size,
                  format := cfg.file_format, dataframe := "Dask" })]
            else [],
          groups := materializeGroups genes,
          error := none }
    else
      abortedRun ["invalid file format", "Filename: gene_info.tsv"] [] (some client)
        (.nameError "genes")

/-! ## Sample data (used to instantiate theorems with hypotheses) -/

/-- A protein-coding human gene row as it appears in `gene_info`. -/
def sampleRow1 : RawRow :=
  [("#tax_id", "9606"), ("GeneID", "1"), ("Symbol", "A1BG"), ("Synonyms", "A1B"),
   ("description", "alpha-1-B glycoprotein"), ("type_of_gene", "protein-coding"),
   ("chromosome", "19"), ("Other", "x")]

/-- A non-protein-coding row (filtered out). -/
def sampleRow2 : RawRow :=
  [("#tax_id", "9606"), ("GeneID", "2"), ("Symbol", "TRX"), ("Synonyms", "-"),
   ("description", "a tRNA"), ("type_of_gene", "tRNA"), ("chromosome", "1"), ("Other", "y")]

/-- A protein-coding row of another organism. -/
def sampleRow3 : RawRow :=
  [("#tax_id", "7227"), ("GeneID", "3"), ("Symbol", "w"), ("Synonyms", "-"),
   ("description", "white"), ("type_of_gene", "protein-coding"), ("chromosome", "X"),
   ("Other", "z")]

/-- A file system where both `gene_info.tsv` and `gene_info.parquet` exist. -/
def sampleFS : FileSys :=
  { tsv := some (6543210000, [sampleRow1, sampleRow2, sampleRow3]),
    parquet := some [sampleRow1, sampleRow2, sampleRow3] }

/-! ## Helper lemmas -/

/-- Projecting onto the seven benchmark columns preserves the value of
`type_of_gene` (it is one of the seven), hence the filter predicate. -/
theorem isProteinCoding_selectRow (r : RawRow) :
    isProteinCoding (selectRow column_names r) = isProteinCoding r := by
  simp [isProteinCoding, selectRow, column_names, getVal, List.lookup]

/-- Pointwise sums of `Nat`-valued maps split. -/
theorem sum_map_add_nat {α : Type} (f g : α → Nat) (l : List α) :
    (l.map fun x => f x + g x).sum = (l.map f).sum + (l.map g).sum := by
  induction l with
  | nil => rfl
  | cons a l ih => simp [ih]; omega

/-- Summing the indicator of `a` over a list counts the occurrences of `a`. -/
theorem sum_map_ite_count {α : Type} [DecidableEq α] (a : α) (l : List α) :
    (l.map fun x => if x = a then 1 else 0).sum = l.count a := by
  induction l with
  | nil => rfl
  | cons b l ih =>
    by_cases hb : b = a
    · simp [List.count_cons, hb, ih]
      omega
    · simp [List.count_cons, hb, ih]

/-- Summing the multiplicity of each distinct element recovers the length. -/
theorem sum_map_count_dedup {α : Type} [DecidableEq α] (l : List α) :
    (l.dedup.map fun x => l.count x).sum = l.length := by
  induction l with
  | nil => rfl
  | cons a l ih =>
    have hsplit : ∀ dl : List α,
        (dl.map fun x => (a :: l).count x).sum
          = (dl.map fun x => l.count x).sum + (dl.map fun x => if x = a then 1 else 0).sum := by
      intro dl
      rw [← sum_map_add_nat]
      apply congrArg
      apply List.map_congr_left
      intro x _
      by_cases hx : x = a <;> simp [List.count_cons, hx]
    by_cases h : a ∈ l
    · rw [List.dedup_cons_of_mem h, hsplit, ih, sum_map_ite_count,
        List.count_eq_one_of_mem (List.nodup_dedup l) (List.mem_dedup.mpr h)]
      simp
    · rw [List.dedup_cons_of_not_mem h, hsplit]
      simp only [List.map_cons, List.sum_cons]
      rw [ih, sum_map_ite_count]
      have hael : a ∉ l.dedup := fun hc => h (List.mem_dedup.mp hc)
      rw [List.count_eq_zero_of_not_mem hael, List.count_eq_zero_of_not_mem h]
      simp

/-! ## C4: the csv path and the parquet path produce the same dataset -/

/-- C4.  The csv path (project to the seven columns at load, then filter on
`type_of_gene == 'protein-coding'`) and the parquet path (predicate pushed
down into the load, then the column restriction) yield the same dataset:
exactly the protein-coding rows, each restricted to the seven named columns.
-/
theorem csv_and_parquet_paths_agree (rows : List RawRow) :
    readCsvDF rows = readParquetDF rows ∧
    readCsvDF rows = (rows.filter isProteinCoding).map (selectRow column_names) := by
  have h : readCsvDF rows = readParquetDF rows := by
    unfold readCsvDF readParquetDF
    rw [List.filter_map]
    apply congrArg
    apply List.filter_congr
    intro r _
    exact isProteinCoding_selectRow r
  exact ⟨h, h⟩

/-! ## C5: the group/count table partitions the filtered rows -/

/-- C5.  Grouping a dataframe on `tax_id`: the counts over all group rows sum
to the number of input rows, the group keys are pairwise distinct (exactly
one group row per distinct `tax_id`), and a key occurs iff some row has that
`tax_id`. -/
theorem groupCounts_partition (df : List RawRow) :
    ((groupCounts df).map Prod.snd).sum = df.length ∧
    ((groupCounts df).map Prod.fst).Nodup ∧
    (∀ t, t ∈ (groupCounts df).map Prod.fst ↔ t ∈ df.map taxId) := by
  have hk : (groupCounts df).map Prod.fst = (df.map taxId).dedup := by
    simp [groupCounts, List.map_map, Function.comp_def]
  refine ⟨?_, ?_, ?_⟩
  · have hc : ∀ t, (df.countP fun r => taxId r == t) = (df.map taxId).count t := by
      intro t
      rw [List.count, List.countP_map]
      rfl
    calc ((groupCounts df).map Prod.snd).sum
        = ((df.map taxId).dedup.map fun t => df.countP fun r => taxId r == t).sum := by
          simp [groupCounts, List.map_map, Function.comp_def]
      _ = ((df.map taxId).dedup.map fun t => (df.map taxId).count t).sum := by
          apply congrArg
          exact List.map_congr_left fun t _ => hc t
      _ = (df.map taxId).length := sum_map_count_dedup _
      _ = df.length := List.length_map _ _
  · rw [hk]
    exact List.nodup_dedup _
  · intro t
    rw [hk]
    exact List.mem_dedup

/-! ## C6: the materialized group table is sorted by count, descending -/

/-- C6.  The materialized group/count table is ordered by the `count` column
in monotonically non-increasing order: each row's count is at least the next
row's count. -/
theorem materializeGroups_sorted_desc (df : List RawRow) :
    ((materializeGroups df).Chain' fun a b => b.2 ≤ a.2) := by
  have h : List.Sorted countGe (materializeGroups df) :=
    List.sorted_insertionSort countGe (groupCounts df)
  exact List.Pairwise.chain' h

/-! ## C8: the processing context is sized by the core-count parameter -/

/-- C8.  Both the Dask client and the Spark session are started without an
explicit worker count (all available cores) when `n_cores = 0`, and with
exactly `n_cores` workers when `n_cores > 0`. -/
theorem cluster_init_matches_core_count (n : Nat) :
    (n = 0 → daskClient n = .allAvailable ∧ sparkMaster n = .allAvailable) ∧
    (0 < n → daskClient n = .withWorkers n ∧ sparkMaster n = .withWorkers n) := by
  constructor
  · intro h; subst h; exact ⟨rfl, rfl⟩
  · intro h
    constructor <;> simp [daskClient, sparkMaster, h]

/-- Witness for C8 at `n = 0` and `n = 8`. -/
theorem cluster_init_matches_core_count_witness :
    (daskClient 0 = .allAvailable ∧ sparkMaster 0 = .allAvailable) ∧
    (daskClient 8 = .withWorkers 8 ∧ sparkMaster 8 = .withWorkers 8) :=
  ⟨(cluster_init_matches_core_count 0).1 rfl,
   (cluster_init_matches_core_count 8).2 (by decide)⟩

/-! ## C9: the rename step changes only the `#tax_id` column name -/

/-- The `j`-th cell of a renamed row: the key goes through `renameKey`, the
value is untouched. -/
theorem renameRow_getD (r : RawRow) (j : Nat) :
    (renameRow r).getD j ("", "") =
      (renameKey ((r.getD j ("", "")).1), (r.getD j ("", "")).2) := by
  simp only [renameRow, List.getD, List.getElem?_map]
  cases hj : r[j]? <;> simp [hj, renameKey]

/-- C9.  The rename step keeps the number of rows, keeps every cell value of
every row (in order), renames a `#tax_id` key to `tax_id`, and leaves every
other key unchanged. -/
theorem rename_changes_only_taxid_key (df : List RawRow) :
    (renameDF df).length = df.length ∧
    ∀ i, i < df.length →
      ((renameDF df).getD i []).map Prod.snd = (df.getD i []).map Prod.snd ∧
      ((renameDF df).getD i []).length = (df.getD i []).length ∧
      ∀ j, j < (df.getD i []).length →
        (((df.getD i []).getD j ("", "")).1 = "#tax_id" →
          (((renameDF df).getD i []).getD j ("", "")).1 = "tax_id") ∧
        (((df.getD i []).getD j ("", "")).1 ≠ "#tax_id" →
          (((renameDF df).getD i []).getD j ("", "")).1 = ((df.getD i []).getD j ("", "")).1) := by
  have hrow : ∀ i, (renameDF df).getD i [] = renameRow (df.getD i []) := by
    intro i
    simp only [renameDF, List.getD, List.getElem?_map]
    cases hi : df[i]? <;> simp [hi, renameRow]
  refine ⟨by simp [renameDF], ?_⟩
  intro i _
  rw [hrow]
  refine ⟨by simp [renameRow, List.map_map, Function.comp_def], by simp [renameRow], ?_⟩
  intro j _
  rw [renameRow_getD]
  constructor
  · intro h
    simp only [renameKey]
    rw [if_pos h]
  · intro h
    simp only [renameKey]
    rw [if_neg h]

/-- Witness for C9 at a concrete dataframe containing a `#tax_id` column. -/
theorem rename_changes_only_taxid_key_witness :
    (renameDF [sampleRow1]).length = ([sampleRow1] : List RawRow).length ∧
    (((renameDF [sampleRow1]).getD 0 []).getD 0 ("", "")).1 = "tax_id" := by
  have h := rename_changes_only_taxid_key [sampleRow1]
  exact ⟨h.1, ((h.2 0 (by decide)).2.2 0 (by decide)).1 (by decide)⟩

/-! ## C1: one result row per valid run (requires a positive core count) -/

/-- C1 counterexample.  A fully valid configuration with `core_count = 0`
(valid per the contract: 0 = use all available cores) completes without error
but writes no result row — the write cell is guarded by `n_cores > 0` — so
the run does not produce exactly one result row. -/
theorem zero_cores_run_writes_no_result_row :
    (runDask ⟨0, "csv"⟩ sampleFS 17).error = none ∧
    (runDask ⟨0, "csv"⟩ sampleFS 17).written = [] ∧
    ¬ (runDask ⟨0, "csv"⟩ sampleFS 17).written.length = 1 := by
  decide

/-- C1 (amended).  A run with a *positive* core count, a file format of
`csv` or `parquet`, and existing input files completes without error and
writes exactly one result row — a row with the columns
`cores, time, size, format, dataframe` — into the results directory. -/
theorem valid_run_writes_exactly_one_result_row (cfg : Config) (fs : FileSys)
    (elapsed bytes : Nat) (rows : List RawRow)
    (hfmt : cfg.file_format = "csv" ∨ cfg.file_format = "parquet")
    (htsv : fs.tsv = some (bytes, rows))
    (hpqex : cfg.file_format = "parquet" → fs.parquet ≠ none)
    (hcores : 0 < cfg.n_cores) :
    (runDask cfg fs elapsed).error = none ∧
    (runDask cfg fs elapsed).written =
      [("results/" ++ outputFile "3-DaskDataframe" (fileSizeStr bytes) cfg.file_format cfg.n_cores,
        { cores := cfg.n_cores, time := elapsed, size := fileSizeStr bytes,
          format := cfg.file_format, dataframe := "Dask" })] := by
  rcases hfmt with hfmt | hfmt
  · simp [runDask, htsv, hfmt, hcores]
  · cases hp : fs.parquet with
    | none => exact absurd hp (hpqex hfmt)
    | some pq =>
      have : ¬ cfg.file_format = "csv" := by rw [hfmt]; decide
      simp [runDask, htsv, hfmt, hp, hcores, this]

/-- Witness for C1 (amended) at a concrete valid csv run. -/
theorem valid_run_writes_exactly_one_result_row_witness :
    (runDask ⟨8, "csv"⟩ sampleFS 17).error = none ∧
    (runDask ⟨8, "csv"⟩ sampleFS 17).written =
      [("results/" ++ outputFile "3-DaskDataframe" (fileSizeStr 6543210000) "csv" 8,
        { cores := 8, time := 17, size := fileSizeStr 6543210000,
          format := "csv", dataframe := "Dask" })] :=
  valid_run_writes_exactly_one_result_row ⟨8, "csv"⟩ sampleFS 17 6543210000
    [sampleRow1, sampleRow2, sampleRow3] (Or.inl rfl) rfl
    (fun _ => by simp [sampleFS]) (by decide)

/-! ## C2: an invalid file format is reported but then kills the run -/

/-- C2 counterexample.  With an invalid file format the run *does* terminate
fatally: the read cell leaves `genes` unassigned, so the unconditional
`genes.rename` raises an uncaught `NameError`.  The claimed "does not
terminate the run fatally" is false. -/
theorem invalid_format_run_is_fatal_counterexample :
    (runDask ⟨8, "xml"⟩ sampleFS 17).error = some (RunError.nameError "genes") ∧
    ¬ (runDask ⟨8, "xml"⟩ sampleFS 17).error = none := by
  decide

/-- C2 (amended).  For every run whose input file exists and whose
`file_format` is neither `csv` nor `parquet`, the harness prints the invalid
file-format report, attempts no read of the input data, and writes no result
row; the run then terminates fatally with an uncaught `NameError` on the
unassigned `genes` variable at the rename step. -/
theorem invalid_format_reported_unread_unwritten_but_fatal (cfg : Config)
    (fs : FileSys) (elapsed bytes : Nat) (rows : List RawRow)
    (htsv : fs.tsv = some (bytes, rows))
    (h1 : cfg.file_format ≠ "csv") (h2 : cfg.file_format ≠ "parquet") :
    (runDask cfg fs elapsed).printed = ["invalid file format", "Filename: gene_info.tsv"] ∧
    (runDask cfg fs elapsed).readsAttempted = [] ∧
    (runDask cfg fs elapsed).written = [] ∧
    (runDask cfg fs elapsed).error = some (RunError.nameError "genes") := by
  simp [runDask, htsv, h1, h2, abortedRun]

/-- Witness for C2 (amended) at a concrete invalid format. -/
theorem invalid_format_reported_unread_unwritten_but_fatal_witness :
    (runDask ⟨8, "xml"⟩ sampleFS 17).printed = ["invalid file format", "Filename: gene_info.tsv"] ∧
    (runDask ⟨8, "xml"⟩ sampleFS 17).readsAttempted = [] ∧
    (runDask ⟨8, "xml"⟩ sampleFS 17).written = [] ∧
    (runDask ⟨8, "xml"⟩ sampleFS 17).error = some (RunError.nameError "genes") :=
  invalid_format_reported_unread_unwritten_but_fatal ⟨8, "xml"⟩ sampleFS 17
    6543210000 [sampleRow1, sampleRow2, sampleRow3] rfl (by decide) (by decide)

/-! ## C3: a missing input file is fatal and writes nothing -/

/-- C3.  When the run's input file does not exist — `gene_info.tsv` for a csv
run, `gene_info.parquet` for a parquet run — the run ends with an uncaught
`FileNotFoundError` and no result row is written. -/
theorem missing_input_file_fatal_no_result (cfg : Config) (fs : FileSys)
    (elapsed : Nat)
    (h : (cfg.file_format = "csv" ∧ fs.tsv = none) ∨
         (cfg.file_format = "parquet" ∧ fs.parquet = none)) :
    (∃ f, (runDask cfg fs elapsed).error = some (RunError.fileNotFound f)) ∧
    (runDask cfg fs elapsed).written = [] := by
  rcases h with ⟨_, htsv⟩ | ⟨hfmt, hpq⟩
  · refine ⟨⟨"gene_info.tsv", ?_⟩, ?_⟩ <;> simp [runDask, htsv, abortedRun]
  · cases htsv : fs.tsv with
    | none =>
      refine ⟨⟨"gene_info.tsv", ?_⟩, ?_⟩ <;> simp [runDask, htsv, abortedRun]
    | some v =>
      have hne : ¬ cfg.file_format = "csv" := by rw [hfmt]; decide
      refine ⟨⟨"gene_info.parquet", ?_⟩, ?_⟩ <;>
        simp [runDask, htsv, hfmt, hne, hpq, abortedRun]

/-- Witness for C3 at a run whose `gene_info.tsv` is missing. -/
theorem missing_input_file_fatal_no_result_witness :
    (∃ f, (runDask ⟨8, "csv"⟩ ⟨none, none⟩ 17).error = some (RunError.fileNotFound f)) ∧
    (runDask ⟨8, "csv"⟩ ⟨none, none⟩ 17).written = [] :=
  missing_input_file_fatal_no_result ⟨8, "csv"⟩ ⟨none, none⟩ 17 (Or.inl ⟨rfl, rfl⟩)

/-! ## C10: the recorded size always comes from `gene_info.tsv` -/

/-- C10.  Even for a parquet run, the size recorded in the result row and
encoded in the result filename is computed from the byte size of
`gene_info.tsv` alone, and the tsv file must exist for the run to get past
the setup cell at all: if it is missing the run dies with
`FileNotFoundError` on `gene_info.tsv` even when the parquet file exists. -/
theorem size_recorded_from_tsv_even_for_parquet (cfg : Config) (fs : FileSys)
    (elapsed : Nat) (hfmt : cfg.file_format = "parquet") :
    (fs.tsv = none →
      (runDask cfg fs elapsed).error = some (RunError.fileNotFound "gene_info.tsv") ∧
      (runDask cfg fs elapsed).written = []) ∧
    (∀ bytes rows, fs.tsv = some (bytes, rows) →
      ∀ w ∈ (runDask cfg fs elapsed).written,
        w.2.size = fileSizeStr bytes ∧
        w.1 = "results/" ++
          outputFile "3-DaskDataframe" (fileSizeStr bytes) cfg.file_format cfg.n_cores) := by
  constructor
  · intro htsv
    constructor <;> simp [runDask, htsv, abortedRun]
  · intro bytes rows htsv w hw
    have hne : ¬ cfg.file_format = "csv" := by rw [hfmt]; decide
    cases hp : fs.parquet with
    | none =>
      rw [runDask] at hw
      simp [htsv, hfmt, hne, hp, abortedRun] at hw
    | some pq =>
      rw [runDask] at hw
      simp only [htsv, hfmt, hne, hp] at hw
      by_cases hc : cfg.n_cores > 0
      · simp [hc] at hw
        subst hw
        exact ⟨rfl, by rw [hfmt]⟩
      · simp [hc] at hw

/-- Witness for C10: the row actually written by a concrete parquet run has
the tsv-derived size and filename. -/
theorem size_recorded_from_tsv_even_for_parquet_witness :
    ("results/" ++ outputFile "3-DaskDataframe" (fileSizeStr 6543210000) "parquet" 8,
      ({ cores := 8, time := 17, size := fileSizeStr 6543210000,
         format := "parquet", dataframe := "Dask" } : ResultRow)).2.size
        = fileSizeStr 6543210000 ∧
    ("results/" ++ outputFile "3-DaskDataframe" (fileSizeStr 6543210000) "parquet" 8,
      ({ cores := 8, time := 17, size := fileSizeStr 6543210000,
         format := "parquet", dataframe := "Dask" } : ResultRow)).1
        = "results/" ++ outputFile "3-DaskDataframe" (fileSizeStr 6543210000) "parquet" 8 :=
  (size_recorded_from_tsv_even_for_parquet ⟨8, "parquet"⟩ sampleFS 17 rfl).2
    6543210000 [sampleRow1, sampleRow2, sampleRow3] rfl
    ("results/" ++ outputFile "3-DaskDataframe" (fileSizeStr 6543210000) "parquet" 8,
      ({ cores := 8, time := 17, size := fileSizeStr 6543210000,
         format := "parquet", dataframe := "Dask" } : ResultRow))
    (by decide)

/-! ## C7: the result filename encodes the run parameters injectively -/

/-- The engine name prefixes used in the four result-write cells. -/
def engineNames : List String :=
  ["2-PandasDataframe", "3-DaskDataframe", "4-SparkDataframe", "6-DaskCudaDataframe"]

/-- Big-endian decimal digit characters of a natural number (the reference
rendering used to reason about `Nat.repr`, the model of Python's `f\x7bn\x7d`). -/
def digitsOf (n : Nat) : List Char :=
  if _h : n < 10 then [Nat.digitChar n]
  else digitsOf (n / 10) ++ [Nat.digitChar (n % 10)]
decreasing_by
  exact Nat.div_lt_self (by omega) (by omega)

/-- With enough fuel, the core numeral printer produces the decimal digits. -/
theorem toDigitsCore_eq (fuel : Nat) : ∀ (n : Nat) (ds : List Char), n < fuel →
    Nat.toDigitsCore 10 fuel n ds = digitsOf n ++ ds := by
  induction fuel with
  | zero => intro n ds h; omega
  | succ fuel ih =>
    intro n ds h
    rw [Nat.toDigitsCore]
    by_cases h10 : n / 10 = 0
    · have hn : n < 10 := by omega
      rw [if_pos h10, digitsOf, dif_pos hn, Nat.mod_eq_of_lt hn]
      rfl
    · have hn : ¬ n < 10 := by omega
      have hlt : n / 10 < fuel := by
        have h2 : n / 10 < n := Nat.div_lt_self (by omega) (by omega)
        omega
      rw [if_neg h10, ih (n / 10) (Nat.digitChar (n % 10) :: ds) hlt]
      conv_rhs => rw [digitsOf, dif_neg hn]
      simp

/-- `Nat.repr` renders exactly the decimal digits. -/
theorem repr_eq_digitsOf (n : Nat) : Nat.repr n = (digitsOf n).asString := by
  rw [Nat.repr, Nat.toDigits, toDigitsCore_eq (n + 1) n [] (Nat.lt_succ_self n),
    List.append_nil]

/-- Reading a digit character back (`code point - 48`) inverts `digitChar`. -/
theorem digitChar_val : ∀ d, d < 10 → (Nat.digitChar d).toNat - 48 = d := by decide

/-- Decimal value of a digit string, most significant digit first. -/
def valOf (l : List Char) : Nat :=
  l.foldl (fun a c => 10 * a + (c.toNat - 48)) 0

/-- `valOf` inverts `digitsOf`, so the digit rendering is injective. -/
theorem valOf_digitsOf (n : Nat) : valOf (digitsOf n) = n := by
  induction n using Nat.strong_induction_on with
  | _ n ih =>
    by_cases h : n < 10
    · rw [digitsOf, dif_pos h]
      simpa [valOf] using digitChar_val n h
    · rw [digitsOf, dif_neg h]
      rw [valOf, List.foldl_append]
      have h1 := ih (n / 10) (Nat.div_lt_self (by omega) (by omega))
      rw [valOf] at h1
      rw [h1]
      simp only [List.foldl_cons, List.foldl_nil]
      rw [digitChar_val (n % 10) (by omega)]
      omega

/-- Distinct numbers have distinct decimal renderings. -/
theorem nat_repr_injective (m n : Nat) (h : Nat.repr m = Nat.repr n) : m = n := by
  rw [repr_eq_digitsOf, repr_eq_digitsOf] at h
  have hd : digitsOf m = digitsOf n := by
    have := congrArg String.data h
    simpa [List.asString] using this
  have := congrArg valOf hd
  rwa [valOf_digitsOf, valOf_digitsOf] at this

/-- String concatenation concatenates the character data. -/
theorem data_append (a b : String) : (a ++ b).data = a.data ++ b.data := by
  cases a; cases b; rfl

/-- Splitting at the first separator: two underscore-free chunks followed by
an underscore agree iff chunks and tails agree. -/
theorem sep_peel : ∀ (a b rest1 rest2 : List Char), '_' ∉ a → '_' ∉ b →
    a ++ '_' :: rest1 = b ++ '_' :: rest2 → a = b ∧ rest1 = rest2 := by
  intro a
  induction a with
  | nil =>
    intro b r1 r2 _ hb h
    cases b with
    | nil => simpa using h
    | cons y ys =>
      simp only [List.nil_append, List.cons_append, List.cons.injEq] at h
      exact absurd (h.1 ▸ List.mem_cons_self y ys) hb
  | cons x xs ih =>
    intro b r1 r2 ha hb h
    cases b with
    | nil =>
      simp only [List.nil_append, List.cons_append, List.cons.injEq] at h
      exact absurd (h.1 ▸ List.mem_cons_self x xs) ha
    | cons y ys =>
      simp only [List.cons_append, List.cons.injEq] at h
      obtain ⟨hxy, hrest⟩ := h
      have hxs : '_' ∉ xs := fun hc => ha (List.mem_cons_of_mem x hc)
      have hys : '_' ∉ ys := fun hc => hb (List.mem_cons_of_mem y hc)
      obtain ⟨h1, h2⟩ := ih ys r1 r2 hxs hys hrest
      exact ⟨by rw [hxy, h1], h2⟩

/-- Strings with the same character data are equal. -/
theorem string_data_inj {a b : String} (h : a.data = b.data) : a = b := by
  cases a
  cases b
  exact congrArg String.mk h

/-- No engine name contains an underscore. -/
theorem engine_no_underscore : ∀ e ∈ engineNames, '_' ∉ e.data := by decide

/-- C7.  The result filename `\x7bengine\x7d_\x7bsize\x7d_\x7bformat\x7d_\x7bcores\x7d.csv` is a
deterministic, injective encoding of the run parameters: two filenames are
equal iff engine, size string, file format and core count all coincide —
given that the engine is one of the four notebook engines, the format is one
the run can write (`csv` or `parquet`), and the size strings, being decimal
renderings, contain no underscore. -/
theorem outputFile_encodes_parameters
    (e1 e2 s1 s2 f1 f2 : String) (c1 c2 : Nat)
    (he1 : e1 ∈ engineNames) (he2 : e2 ∈ engineNames)
    (hf1 : f1 = "csv" ∨ f1 = "parquet") (hf2 : f2 = "csv" ∨ f2 = "parquet")
    (hs1 : '_' ∉ s1.data) (hs2 : '_' ∉ s2.data) :
    outputFile e1 s1 f1 c1 = outputFile e2 s2 f2 c2 ↔
      (e1 = e2 ∧ s1 = s2 ∧ f1 = f2 ∧ c1 = c2) := by
  constructor
  · intro h
    have hd := congrArg String.data h
    simp only [outputFile, data_append, List.append_assoc, List.cons_append,
      List.nil_append] at hd
    have he1u := engine_no_underscore e1 he1
    have he2u := engine_no_underscore e2 he2
    obtain ⟨heq, hd⟩ := sep_peel _ _ _ _ he1u he2u hd
    obtain ⟨hseq, hd⟩ := sep_peel _ _ _ _ hs1 hs2 hd
    have hf1u : '_' ∉ f1.data := by rcases hf1 with rfl | rfl <;> decide
    have hf2u : '_' ∉ f2.data := by rcases hf2 with rfl | rfl <;> decide
    obtain ⟨hfeq, hd⟩ := sep_peel _ _ _ _ hf1u hf2u hd
    have hc : (toString c1).data = (toString c2).data := by
      exact List.append_cancel_right hd
    have : c1 = c2 := nat_repr_injective c1 c2 (string_data_inj hc)
    exact ⟨string_data_inj heq, string_data_inj hseq, string_data_inj hfeq, this⟩
  · rintro ⟨rfl, rfl, rfl, rfl⟩
    rfl


/-- Witness for C7: equal parameters give equal filenames, and a change of
format alone changes the filename. -/
theorem outputFile_encodes_parameters_witness :
    (outputFile "3-DaskDataframe" "6.5" "csv" 8 = outputFile "3-DaskDataframe" "6.5" "csv" 8 ↔
      ("3-DaskDataframe" = "3-DaskDataframe" ∧ "6.5" = "6.5" ∧ "csv" = "csv" ∧ 8 = 8)) ∧
    (outputFile "3-DaskDataframe" "6.5" "csv" 8 = outputFile "3-DaskDataframe" "6.5" "parquet" 8 ↔
      ("3-DaskDataframe" = "3-DaskDataframe" ∧ "6.5" = "6.5" ∧ "csv" = "parquet" ∧ 8 = 8)) :=
  ⟨outputFile_encodes_parameters "3-DaskDataframe" "3-DaskDataframe" "6.5" "6.5"
      "csv" "csv" 8 8 (by decide) (by decide) (Or.inl rfl) (Or.inl rfl) (by decide) (by decide),
   outputFile_encodes_parameters "3-DaskDataframe" "3-DaskDataframe" "6.5" "6.5"
      "csv" "parquet" 8 8 (by decide) (by decide) (Or.inl rfl) (Or.inr rfl) (by decide) (by decide)⟩

end DfParallel
